import Mathlib

/-!
Verification development for the dual-track quantum job orchestration service
(`src/enhanced_quantum_service.py`).

The embedding models:
* `AsyncQuantumJobManager` (the JobStore): the sqlite `quantum_jobs` table as a
  list of `Job` rows plus a fresh-id counter (the `job_id TEXT UNIQUE` column is
  modelled by sequential `Nat` ids, which is exactly the freshness the UNIQUE
  constraint enforces).
* `QuantumDeviceManager` (the DeviceRegistry): the static `devices` dict.
  The purely presentational fields (`description`, `advantages`,
  `typical_runtime`) are omitted; no operation of the system reads or writes
  them.  The keys `status` / `aws_configured`, which
  `EnhancedQuantumService.get_available_devices` adds to the stored dicts at
  run time, are modelled as `Option` fields that are `none` at construction.
* `EnhancedQuantumService`: the orchestrator.  External I/O (an actual Braket
  run of a circuit, the AHS run, python `hash`, the md5 circuit digest, the
  probabilistic availability simulation, the seeded `random.uniform` stream)
  is abstracted into oracles carried by `Env`; everything the python control
  flow does with the oracle answers (caching, fallback chains, exception
  swallowing, job-status bookkeeping, placement, clamping) is modelled
  faithfully.  `datetime.now()` / `time.time()` are modelled by the single
  clock value `Env.now` (one call of the service is modelled at one instant).
* Floating point arithmetic is modelled by exact rationals; `math.cos` /
  `math.sin` by rational Taylor polynomials (`pcos` / `psin`), which agree
  with the float versions to well below the tolerances any theorem here uses
  on all arguments any theorem here evaluates them at.
-/

set_option allowUnsafeReducibility true

attribute [semireducible] Rat.ofScientific Rat.mul Rat.inv Rat.add Rat.sub

/-- Tests whether `pat` occurs as a contiguous run somewhere in `l`. -/
def containsSubList (pat : List Char) : List Char → Bool
  | [] => pat.isEmpty
  | c :: cs => pat.isPrefixOf (c :: cs) || containsSubList pat cs

/-- Boolean substring test: models the python `pat in s` test on strings. -/
def containsSub (s pat : String) : Bool :=
  containsSubList pat.toList s.toList

/-- Python float modulo for the arguments used here (nonnegative divisor):
`a % b = a - b * floor (a / b)`. -/
def pymod (a b : ℚ) : ℚ :=
  a - b * ⌊a / b⌋

/-- Models `random.uniform a b` where `u k` is the k-th output of the seeded
generator, as `a + u k * (b - a)` (for a valid stream, `u k ∈ [0,1]`). -/
def pyUniform (u : ℕ → ℚ) (k : ℕ) (a b : ℚ) : ℚ :=
  a + u k * (b - a)

/-- Rational stand-in for `math.sin` (degree-9 Taylor polynomial; exact at `0`
and accurate to below `10 ^ (-5)` on every argument a theorem of this file
evaluates it at). -/
def psin (x : ℚ) : ℚ :=
  x - x ^ 3 / 6 + x ^ 5 / 120 - x ^ 7 / 5040 + x ^ 9 / 362880

/-- Rational stand-in for `math.cos` (degree-10 Taylor polynomial; exact at `0`
and accurate to below `10 ^ (-5)` on every argument a theorem of this file
evaluates it at). -/
def pcos (x : ℚ) : ℚ :=
  1 - x ^ 2 / 2 + x ^ 4 / 24 - x ^ 6 / 720 + x ^ 8 / 40320 - x ^ 10 / 3628800

/-! ## JobStore: `AsyncQuantumJobManager` over the `quantum_jobs` table -/

/-- One row of the `quantum_jobs` sqlite table.  Column values that sqlite
stores as nullable text are `Option String`; `signature_id` is kept as an
opaque stored value (sqlite is dynamically typed). -/
structure Job where
  jobId : ℕ
  deviceId : String
  deviceArn : String
  userName : String
  userMessage : String
  status : String
  createdAt : ℕ
  submittedAt : Option String
  completedAt : Option String
  resultData : Option String
  errorMessage : Option String
  estimatedCompletion : Option String
  signatureId : Option String
deriving DecidableEq

/-- The job database: rows in insertion order plus the fresh-id supply
(`qjob_<time>_<random>` ids with the UNIQUE constraint are modelled as
sequential naturals). -/
structure JobStore where
  jobs : List Job
  nextId : ℕ
deriving DecidableEq

/-- The row inserted by `create_job` (status `created`, `created_at` set by
the sqlite default, every other nullable column NULL). -/
def newJob (id now : ℕ) (deviceId deviceArn userName userMessage : String) : Job :=
  { jobId := id, deviceId := deviceId, deviceArn := deviceArn, userName := userName,
    userMessage := userMessage, status := "created", createdAt := now,
    submittedAt := none, completedAt := none, resultData := none,
    errorMessage := none, estimatedCompletion := none, signatureId := none }

/-- Models `AsyncQuantumJobManager.create_job`: insert a fresh row in status
`created` and return its id. -/
def create_job (store : JobStore) (now : ℕ)
    (deviceId deviceArn userName userMessage : String) : ℕ × JobStore :=
  (store.nextId,
   { jobs := store.jobs ++ [newJob store.nextId now deviceId deviceArn userName userMessage],
     nextId := store.nextId + 1 })

/-- The column whitelist of `update_job_status`. -/
def allowedKeys : List String :=
  ["submitted_at", "completed_at", "result_data", "error_message",
   "estimated_completion", "signature_id"]

/-- Applies one recognized keyword of `update_job_status` to a row
(one `col = ?` clause of the dynamic UPDATE). -/
def applyKwarg (j : Job) (kv : String × String) : Job :=
  match kv.1 with
  | "submitted_at" => { j with submittedAt := some kv.2 }
  | "completed_at" => { j with completedAt := some kv.2 }
  | "result_data" => { j with resultData := some kv.2 }
  | "error_message" => { j with errorMessage := some kv.2 }
  | "estimated_completion" => { j with estimatedCompletion := some kv.2 }
  | "signature_id" => { j with signatureId := some kv.2 }
  | _ => j

/-- Applies a keyword list to a row (keys are distinct in python, so the fold
order is immaterial there). -/
def applyKwargs (j : Job) (kwargs : List (String × String)) : Job :=
  kwargs.foldl applyKwarg j

/-- The effect of the UPDATE statement on a single row: rows whose `job_id`
matches get `status` overwritten and the whitelisted keywords applied; every
other row is untouched. -/
def updRow (jobId : ℕ) (status : String) (kwargs : List (String × String)) (j : Job) : Job :=
  if j.jobId = jobId then
    applyKwargs { j with status := status } (kwargs.filter fun kv => allowedKeys.contains kv.1)
  else j

/-- Models `AsyncQuantumJobManager.update_job_status`: one dynamic UPDATE of
`status` plus the whitelisted keyword columns, `WHERE job_id = ?`.  There is no
guard on the current status of the row. -/
def update_job_status (store : JobStore) (jobId : ℕ) (status : String)
    (kwargs : List (String × String)) : JobStore :=
  { store with jobs := store.jobs.map (updRow jobId status kwargs) }

/-- Models `AsyncQuantumJobManager.get_job`: the row with the given id. -/
def getJob (store : JobStore) (jobId : ℕ) : Option Job :=
  store.jobs.find? fun j => j.jobId == jobId

/-! ## DeviceRegistry: `QuantumDeviceManager` -/

/-- One capability record of the `QuantumDeviceManager.devices` dict.
`status` / `awsConfigured` model the keys that
`EnhancedQuantumService.get_available_devices` writes into the stored dict at
run time; at registry construction they are absent (`none`). -/
structure DeviceInfo where
  name : String
  dtype : String
  arn : String
  region : String
  maxQubits : ℕ
  supportsBellStates : Bool
  asyncRequired : Bool
  status : Option String
  awsConfigured : Option Bool
deriving DecidableEq

/-- Shorthand for a freshly constructed capability record. -/
def mkDevice (name dtype arn region : String) (maxQubits : ℕ)
    (supportsBellStates asyncRequired : Bool) : DeviceInfo :=
  { name := name, dtype := dtype, arn := arn, region := region, maxQubits := maxQubits,
    supportsBellStates := supportsBellStates, asyncRequired := asyncRequired,
    status := none, awsConfigured := none }

/-- The static `QuantumDeviceManager.devices` catalog. -/
def initialDevices : List (String × DeviceInfo) :=
  [("local_simulator",
    mkDevice "Local Simulator" "simulator" "local://simulator" "local" 34 true false),
   ("aws_sv1",
    mkDevice "AWS SV1 Simulator" "managed_simulator"
      "arn:aws:braket:::device/quantum-simulator/amazon/sv1" "us-east-1" 34 true true),
   ("ionq_forte",
    mkDevice "IonQ Forte Enterprise" "qpu"
      "arn:aws:braket:us-east-1::device/qpu/ionq/Forte-Enterprise-1" "us-east-1" 32 true true),
   ("iqm_garnet",
    mkDevice "IQM Garnet" "qpu"
      "arn:aws:braket:eu-north-1::device/qpu/iqm/Emerald" "eu-north-1" 20 true true),
   ("quera_aquila",
    mkDevice "QuEra Aquila" "qpu"
      "arn:aws:braket:us-east-1::device/qpu/quera/Aquila" "us-east-1" 256 false true),
   ("rigetti_ankaa3",
    mkDevice "Rigetti Ankaa-3" "qpu"
      "arn:aws:braket:us-west-1::device/qpu/rigetti/Ankaa-3" "us-west-1" 84 true true)]

/-- Models `QuantumDeviceManager.get_device_info`: `devices.get(id, {})`, with
the empty dict rendered as `none`. -/
def get_device_info (devices : List (String × DeviceInfo)) (deviceId : String) :
    Option DeviceInfo :=
  devices.lookup deviceId

/-! ## Service state and environment oracles -/

/-- The mutable state of one `EnhancedQuantumService` instance: the registry
(aliased, hence mutable in place), the job database, the in-process result
cache `_circuit_cache`, and the AWS session bookkeeping (`_aws_devices` is the
set of device ids that got an `AwsDevice` handle at startup). -/
structure ServiceState where
  deviceManager : List (String × DeviceInfo)
  jobStore : JobStore
  circuitCache : List (String × ℕ)
  awsDevices : List String
  awsSession : Bool
deriving DecidableEq

/-- External-world oracles.  `now` is the clock (`time.time()`, whole
seconds); `runMeasure dev seed` is the measured integer a Braket run of the
seed-derived circuit on device `dev` produces (`.error` models the run or its
bounded wait raising, including the timeout path); `ahsRun` likewise for the
QuEra analog-Hamiltonian path; `bellRun dev shots` is the Bell-state
probability vector computed from the measurement counts; `circuitHash` is
`int(md5(str(circuit))[:8], 16)` for the seed-derived circuit; `hashFallback`
is `hash(seed_text + str(time.time()))`; `available` is the simulated QPU
availability draw; `sampler qn` is the `random` stream seeded with
`random.seed(qn)`. -/
structure Env where
  now : ℕ
  runMeasure : String → String → Except String ℕ
  ahsRun : String → String → Except String ℕ
  bellRun : String → ℕ → Except String (List ℚ)
  circuitHash : String → String → ℕ
  hashFallback : String → ℕ
  available : String → Bool
  sampler : ℕ → ℕ → ℚ

/-- Models `EnhancedQuantumService._check_device_availability`.  The local
simulator is always available; without a session or a cached `AwsDevice` the
check fails; simulator types are always available; for QPUs the probabilistic
draw is the oracle `env.available`.  An id that has a handle but no registry
record would raise KeyError inside the `try`, which the handler turns into
unavailable. -/
def check_device_availability (s : ServiceState) (env : Env) (deviceId : String) : Bool :=
  if deviceId = "local_simulator" then true
  else if ¬ s.awsSession ∨ deviceId ∉ s.awsDevices then false
  else
    match get_device_info s.deviceManager deviceId with
    | none => false
    | some info =>
      if info.dtype = "simulator" ∨ info.dtype = "managed_simulator" then true
      else env.available deviceId

/-- The body of `EnhancedQuantumService._execute_on_device` up to its
catch-all handler: local path, AWS path with the availability check and the
`aws_sv1` substitution (raising when unavailable with no fallback), and the
local-simulator fallback when AWS is not configured. -/
def executeOnDeviceInner (s : ServiceState) (env : Env) (deviceId seed : String) :
    Except String ℕ :=
  if deviceId = "local_simulator" then
    env.runMeasure "local_simulator" seed
  else if deviceId ∈ s.awsDevices ∧ s.awsSession then
    if check_device_availability s env deviceId then
      env.runMeasure deviceId seed
    else if "aws_sv1" ∈ s.awsDevices then
      env.runMeasure "aws_sv1" seed
    else
      Except.error ("Device " ++ deviceId ++ " unavailable and no fallback available")
  else
    env.runMeasure "local_simulator" seed

/-- Models `EnhancedQuantumService._execute_on_device`: any exception of the
body (availability failure without fallback, a failed or timed-out run) is
swallowed by the catch-all handler, which answers with the deterministic
circuit-hash fallback `int(md5[:8], 16) % 1000`. -/
def execute_on_device (s : ServiceState) (env : Env) (deviceId seed : String) : ℕ :=
  match executeOnDeviceInner s env deviceId seed with
  | Except.ok n => n
  | Except.error _ => env.circuitHash deviceId seed % 1000

/-- The body of `EnhancedQuantumService._execute_bell_state_on_device` up to
its catch-all handler; same control flow as `executeOnDeviceInner`. -/
def executeBellInner (s : ServiceState) (env : Env) (deviceId : String) (shots : ℕ) :
    Except String (List ℚ) :=
  if deviceId = "local_simulator" then
    env.bellRun "local_simulator" shots
  else if deviceId ∈ s.awsDevices ∧ s.awsSession then
    if check_device_availability s env deviceId then
      env.bellRun deviceId shots
    else if "aws_sv1" ∈ s.awsDevices then
      env.bellRun "aws_sv1" shots
    else
      Except.error ("Device " ++ deviceId ++ " unavailable and no fallback available")
  else
    env.bellRun "local_simulator" shots

/-- Models `EnhancedQuantumService._execute_bell_state_on_device`: the
catch-all handler answers the ideal Bell probabilities. -/
def execute_bell (s : ServiceState) (env : Env) (deviceId : String) (shots : ℕ) : List ℚ :=
  match executeBellInner s env deviceId shots with
  | Except.ok ps => ps
  | Except.error _ => [1/2, 0, 0, 1/2]

/-- Models `EnhancedQuantumService._create_bell_state_circuit`.  A device
without Bell support gets the simulated data; an unknown device id raises
KeyError on `device_info[_type]` inside the `try`, whose handler also answers
the ideal probabilities. -/
def create_bell_state_circuit (s : ServiceState) (env : Env) (deviceId : String) : List ℚ :=
  match get_device_info s.deviceManager deviceId with
  | none => [1/2, 0, 0, 1/2]
  | some info =>
    if ¬ info.supportsBellStates then [1/2, 0, 0, 1/2]
    else execute_bell s env deviceId (if info.dtype = "simulator" then 200 else 1000)

/-- The memoization key of `_generate_quantum_random_number`:
`md5(device_id + "_" + seed)` hexdigest, modelled by the (equally injective)
raw string. -/
def cacheKeyOf (deviceId seed : String) : String :=
  deviceId ++ "_" ++ seed

/-- Models `EnhancedQuantumService._generate_quantum_random_number`.  A cache
hit answers `(base + int(time.time())) % 1000` and leaves the state alone.  A
miss on a QuEra id runs the AHS path, caching on success and answering the
uncached `hash(seed+time) % 1000` fallback if it raises.  Any other miss runs
`_execute_on_device` (total: it swallows its own failures) and caches the
result.  Its enclosing handler is unreachable for these paths. -/
def generate_quantum_random_number (s : ServiceState) (env : Env) (deviceId seed : String) :
    ℕ × ServiceState :=
  let key := cacheKeyOf deviceId seed
  match s.circuitCache.lookup key with
  | some base => ((base + env.now) % 1000, s)
  | none =>
    if containsSub deviceId "quera" then
      match env.ahsRun deviceId seed with
      | Except.ok n => (n, { s with circuitCache := (key, n) :: s.circuitCache })
      | Except.error _ => (env.hashFallback seed % 1000, s)
    else
      let n := execute_on_device s env deviceId seed
      (n, { s with circuitCache := (key, n) :: s.circuitCache })

/-- Models `EnhancedQuantumService._estimate_completion_time` as the absolute
completion instant (seconds): device-class minutes added to the clock. -/
def estimate_completion_time (env : Env) (info : DeviceInfo) : ℕ :=
  let minutes : ℕ :=
    if info.dtype = "simulator" then 0
    else if info.dtype = "managed_simulator" then 1
    else if containsSub info.arn "ionq" then 15
    else if containsSub info.arn "iqm" then 25
    else if containsSub info.arn "quera" then 35
    else if containsSub info.arn "rigetti" then 10
    else 20
  env.now + minutes * 60

/-- Injective stand-in for the `json.dumps(result)` payload stored in
`result_data` (quantum number, entanglement vector, device name and type). -/
def resultDataJson (qn : ℕ) (ent : List ℚ) (deviceName deviceType : String) : String :=
  "quantum_number=" ++ toString qn ++ ";entanglement_data=" ++ toString ent ++
    ";device_name=" ++ deviceName ++ ";device_type=" ++ deviceType

/-! ## Orchestrator: `EnhancedQuantumService.process_quantum_signature` -/

/-- The fields of the dict `process_quantum_signature` answers with.
`deviceQuantumNumber` holds the `device_result` quantum number of the
synchronous branch (absent in the asynchronous branch, which returns before
any device result exists). -/
structure PQSOut where
  success : Bool
  error : Option String
  dualMode : Bool
  quantumNumber : Option ℕ
  entanglementData : Option (List ℚ)
  localJobId : Option ℕ
  deviceJobId : Option ℕ
  deviceQuantumNumber : Option ℕ
  estimatedCompletion : Option ℕ
deriving DecidableEq

/-- One fire-and-forget unit of background work spawned with
`asyncio.create_task(self._process_quantum_job_for_signature(...))`. -/
structure BgTask where
  jobId : ℕ
  deviceId : String
  name : String
  response : String
deriving DecidableEq

/-- The seed string `f"{name}:{response}:{tag}:{time.time()}"`. -/
def seedOf (name response tag : String) (now : ℕ) : String :=
  name ++ ":" ++ response ++ ":" ++ tag ++ ":" ++ toString now

/-- Models `EnhancedQuantumService.process_quantum_signature`.  Returns the
response dict, the post-state, and the list of spawned (not yet executed)
background tasks.  An unknown selected backend fails before any job row is
created.  Otherwise both jobs are created unconditionally, the local
fast-track job is executed inline and completed, and then the selected
backend either goes to a background task (async branch) or is executed inline
too (sync branch). -/
def process_quantum_signature (s : ServiceState) (env : Env)
    (name response quantumDevice : String) : PQSOut × ServiceState × List BgTask :=
  match get_device_info s.deviceManager quantumDevice with
  | none =>
    ({ success := false, error := some ("Unknown quantum device: " ++ quantumDevice),
       dualMode := false, quantumNumber := none, entanglementData := none,
       localJobId := none, deviceJobId := none, deviceQuantumNumber := none,
       estimatedCompletion := none }, s, [])
  | some info =>
    let c1 := create_job s.jobStore env.now "local_simulator" "local://simulator"
      name (response ++ "_local")
    let localJobId := c1.1
    let c2 := create_job c1.2 env.now quantumDevice info.arn name (response ++ "_device")
    let deviceJobId := c2.1
    let s2 : ServiceState := { s with jobStore := update_job_status c2.2 localJobId "running" [] }
    let g1 := generate_quantum_random_number s2 env "local_simulator"
      (seedOf name response "local" env.now)
    let localQN := g1.1
    let s3 := g1.2
    let localEnt := create_bell_state_circuit s3 env "local_simulator"
    let localResult := resultDataJson localQN localEnt "Local Simulator" "simulator"
    let s4 : ServiceState := { s3 with jobStore := (update_job_status s3.jobStore localJobId
      "completed" [("completed_at", toString env.now), ("result_data", localResult)]) }
    if info.asyncRequired then
      ({ success := true, error := none, dualMode := true, quantumNumber := some localQN,
         entanglementData := some localEnt, localJobId := some localJobId,
         deviceJobId := some deviceJobId, deviceQuantumNumber := none,
         estimatedCompletion := some (estimate_completion_time env info) },
       s4, [{ jobId := deviceJobId, deviceId := quantumDevice, name := name,
              response := response }])
    else
      let s5 : ServiceState :=
        { s4 with jobStore := update_job_status s4.jobStore deviceJobId "running" [] }
      let g2 := generate_quantum_random_number s5 env quantumDevice
        (seedOf name response "device" env.now)
      let deviceQN := g2.1
      let s6 := g2.2
      let deviceEnt := create_bell_state_circuit s6 env quantumDevice
      let deviceResult := resultDataJson deviceQN deviceEnt info.name info.dtype
      let s7 : ServiceState := { s6 with jobStore := (update_job_status s6.jobStore deviceJobId
        "completed" [("completed_at", toString env.now), ("result_data", deviceResult)]) }
      ({ success := true, error := none, dualMode := true, quantumNumber := some localQN,
         entanglementData := some localEnt, localJobId := some localJobId,
         deviceJobId := some deviceJobId, deviceQuantumNumber := some deviceQN,
         estimatedCompletion := none }, s7, [])

/-- Models `EnhancedQuantumService._process_quantum_job_for_signature`, the
body of the background unit of work: mark `submitted` with the estimate, mark
`running` (inside `_simulate_quantum_processing`), compute the quantum number
and entanglement data (both of which swallow their own failures), then mark
`completed` with the result.  The signature-database side update handles its
own errors and does not touch the job store.  For an id missing from the
registry, `_estimate_completion_time({})` raises KeyError inside the `try`
and the handler marks the job `failed`. -/
def process_quantum_job_for_signature (s : ServiceState) (env : Env) (t : BgTask) :
    ServiceState :=
  match get_device_info s.deviceManager t.deviceId with
  | none =>
    { s with jobStore := (update_job_status s.jobStore t.jobId "failed"
        [("completed_at", toString env.now), ("error_message", "KeyError: type")]) }
  | some info =>
    let st1 := update_job_status s.jobStore t.jobId "submitted"
      [("submitted_at", toString env.now),
       ("estimated_completion", toString (estimate_completion_time env info))]
    let st2 := update_job_status st1 t.jobId "running" []
    let g := generate_quantum_random_number { s with jobStore := st2 } env t.deviceId
      (seedOf t.name t.response "" env.now)
    let s3 := g.2
    let ent := create_bell_state_circuit s3 env t.deviceId
    let result := resultDataJson g.1 ent info.name info.dtype
    { s3 with jobStore := (update_job_status s3.jobStore t.jobId "completed"
        [("completed_at", toString env.now), ("result_data", result)]) }

/-- The per-record status decoration `EnhancedQuantumService.
get_available_devices` writes into the stored dicts. -/
def enrichDevice (s : ServiceState) (deviceId : String) (d : DeviceInfo) : DeviceInfo :=
  if deviceId = "local_simulator" then
    { d with status := some "Always Available", awsConfigured := some false }
  else if s.awsSession ∧ deviceId ∈ s.awsDevices then
    { d with status := some "AWS Connected", awsConfigured := some true }
  else if d.arn.startsWith "arn:aws:braket" then
    { d with status := some "AWS Not Configured", awsConfigured := some false }
  else
    { d with status := some "Available", awsConfigured := some false }

/-- Models `EnhancedQuantumService.get_available_devices`.  The low-level
`QuantumDeviceManager.get_available_devices` returns `self.devices` itself,
so writing `status` / `aws_configured` on the returned records mutates the
registry in place; the answer of the call is the `deviceManager` field of the
returned state. -/
def get_available_devices (s : ServiceState) : ServiceState :=
  { s with deviceManager := s.deviceManager.map fun p => (p.1, enrichDevice s p.1 p.2) }

/-! ## PlacementEngine: `_generate_collision_free_position` -/

/-- An axis-aligned rectangle of percentage coordinates. -/
structure Region where
  x0 : ℚ
  x1 : ℚ
  y0 : ℚ
  y1 : ℚ

/-- One density band of the adaptive layout: card footprint and spacing. -/
structure Band where
  cardW : ℚ
  cardH : ℚ
  spacing : ℚ

/-- The estimated frontend container width (`estimated_viewport_width`). -/
def containerWidth : ℚ := 1400

/-- The estimated container height, `max(600, int(900 * 0.8))`. -/
def containerHeight : ℚ := max 600 ((⌊(900 : ℚ) * 0.8⌋ : ℤ) : ℚ)

/-- The density band keyed by `len(existing) + 1` (the
`calculateAdaptiveLayout` mirror). -/
def layoutBand (numSignatures : ℕ) : Band :=
  if numSignatures ≤ 4 then
    { cardW := max 280 (min 400 (containerWidth / 2.8)),
      cardH := max 180 (min 240 (containerHeight / 2.8)), spacing := 30 }
  else if numSignatures ≤ 6 then
    { cardW := max 250 (min 350 (containerWidth / 3.2)),
      cardH := max 160 (min 220 (containerHeight / 2.6)), spacing := 25 }
  else if numSignatures ≤ 9 then
    { cardW := max 220 (min 300 (containerWidth / 3.8)),
      cardH := max 140 (min 190 (containerHeight / 3.2)), spacing := 20 }
  else if numSignatures ≤ 12 then
    { cardW := max 200 (min 260 (containerWidth / 4.5)),
      cardH := max 130 (min 170 (containerHeight / 3.8)), spacing := 15 }
  else
    { cardW := max 180 (min 220 (containerWidth / 5.5)),
      cardH := max 120 (min 150 (containerHeight / 4.5)), spacing := 12 }

/-- Card width as a percentage of the container. -/
def cardWidthPct (b : Band) : ℚ := b.cardW / containerWidth * 100

/-- Card height as a percentage of the container. -/
def cardHeightPct (b : Band) : ℚ := b.cardH / containerHeight * 100

/-- Effective collision width: breathing scale `1.02` plus the 6px
pseudo-element border in percentage units. -/
def effectiveWidthPct (b : Band) : ℚ := cardWidthPct b * 1.02 + 6 / containerWidth * 100

/-- Effective collision height (same buffers on the vertical axis). -/
def effectiveHeightPct (b : Band) : ℚ := cardHeightPct b * 1.02 + 6 / containerHeight * 100

/-- Minimum spacing in percentage units. -/
def spacingPct (b : Band) : ℚ := b.spacing / containerWidth * 100

/-- The concentric center-biased zone used for a given attempt number. -/
def zoneFor (attempt : ℕ) : Region :=
  if attempt < 50 then { x0 := 30, x1 := 70, y0 := 30, y1 := 70 }
  else if attempt < 100 then { x0 := 20, x1 := 80, y0 := 20, y1 := 80 }
  else { x0 := 15, x1 := 85, y0 := 15, y1 := 85 }

/-- The `device_regions` clustering table (note: the table key
`rigetti_ankaa` does not match the registry id `rigetti_ankaa3`, which
therefore gets the wide default region, like every unknown id). -/
def deviceRegion (deviceId : String) : Region :=
  if deviceId = "local_simulator" then { x0 := 20, x1 := 50, y0 := 20, y1 := 50 }
  else if deviceId = "aws_sv1" then { x0 := 50, x1 := 80, y0 := 20, y1 := 50 }
  else if deviceId = "ionq_forte" then { x0 := 20, x1 := 50, y0 := 50, y1 := 80 }
  else if deviceId = "iqm_garnet" then { x0 := 50, x1 := 80, y0 := 50, y1 := 80 }
  else if deviceId = "quera_aquila" then { x0 := 30, x1 := 70, y0 := 30, y1 := 70 }
  else if deviceId = "rigetti_ankaa" then { x0 := 25, x1 := 75, y0 := 25, y1 := 75 }
  else { x0 := 10, x1 := 90, y0 := 10, y1 := 90 }

/-- The candidate proposed by one attempt of the placement loop, before
clamping, together with the next unread index of the random stream; `none`
models the python `continue`. -/
def attemptCandidate (deviceId : String) (b : Band) (u : ℕ → ℚ) (attempt k : ℕ) :
    Option ((ℚ × ℚ) × ℕ) :=
  let zone := zoneFor attempt
  let dr := deviceRegion deviceId
  let xmin := max zone.x0 dr.x0
  let xmax := min zone.x1 dr.x1
  let ymin := max zone.y0 dr.y0
  let ymax := min zone.y1 dr.y1
  if xmax ≤ xmin ∨ ymax ≤ ymin then none
  else if attempt < 75 then
    let gx := attempt % 8
    let gy := attempt / 8
    if gx < 8 ∧ gy < 8 then
      let xr := xmax - xmin - effectiveWidthPct b
      let yr := ymax - ymin - effectiveHeightPct b
      if 0 < xr ∧ 0 < yr then
        some ((xmin + (gx : ℚ) / 7 * xr + pyUniform u k (-2) 2,
               ymin + (gy : ℚ) / 7 * yr + pyUniform u (k + 1) (-2) 2), k + 2)
      else none
    else none
  else
    if effectiveWidthPct b < xmax - xmin ∧ effectiveHeightPct b < ymax - ymin then
      some ((pyUniform u k xmin (xmax - effectiveWidthPct b),
             pyUniform u (k + 1) ymin (ymax - effectiveHeightPct b)), k + 2)
    else none

/-- The effective-bounding-box overlap test of the collision loop: centers
closer than the breathing footprint plus spacing on both axes. -/
def overlaps (b : Band) (p q : ℚ × ℚ) : Prop :=
  |p.1 - q.1| < effectiveWidthPct b + spacingPct b ∧
    |p.2 - q.2| < effectiveHeightPct b + spacingPct b

instance (b : Band) (p q : ℚ × ℚ) : Decidable (overlaps b p q) := by
  unfold overlaps; infer_instance

/-- The attempt loop of `_generate_collision_free_position`: propose a
candidate, clamp it into the safe band, accept it unless its effective
bounding box overlaps an existing entry.  `fuel` counts the attempts left
(`max_attempts = 150` at the top call). -/
def placeAttempts (existing : List (ℚ × ℚ)) (deviceId : String) (b : Band) (u : ℕ → ℚ) :
    ℕ → ℕ → ℕ → Option (ℚ × ℚ)
  | 0, _, _ => none
  | fuel + 1, attempt, k =>
    match attemptCandidate deviceId b u attempt k with
    | none => placeAttempts existing deviceId b u fuel (attempt + 1) k
    | some (c, k2) =>
      let px := max 12 (min (88 - effectiveWidthPct b) c.1)
      let py := max 12 (min (88 - effectiveHeightPct b) c.2)
      if existing.any fun e => decide (overlaps b (px, py) e) then
        placeAttempts existing deviceId b u fuel (attempt + 1) k2
      else
        some (px, py)

/-- Models `_generate_center_spiral_position`: the expanding spiral anchored
at canvas center, clamped into the safe band.  No collision check is
performed here. -/
def generate_center_spiral_position (signatureCount : ℕ) (effW effH : ℚ) : ℚ × ℚ :=
  let angle : ℚ := (signatureCount : ℚ) * 0.8
  let radius : ℚ := 8 + (signatureCount : ℚ) * 2.5
  (max 12 (min (88 - effW) (50 + radius * pcos angle)),
   max 12 (min (88 - effH) (50 + radius * psin angle)))

/-- Models `_generate_collision_free_position` over a snapshot `existing` of
the stored entry positions: seed the generator with the quantum number
(`sampler quantumNumber` is the resulting stream), run the 150-attempt loop,
and fall back to the spiral when no candidate is accepted. -/
def generate_collision_free_position (existing : List (ℚ × ℚ)) (deviceId : String)
    (quantumNumber : ℕ) (sampler : ℕ → ℕ → ℚ) : ℚ × ℚ :=
  let b := layoutBand (existing.length + 1)
  let u := sampler quantumNumber
  match placeAttempts existing deviceId b u 150 0 0 with
  | some p => p
  | none =>
    generate_center_spiral_position existing.length (effectiveWidthPct b) (effectiveHeightPct b)

/-! ## Visual properties -/

/-- The dict `_generate_device_specific_visuals` answers with; the `color`
field carries the numeric `(hue, saturation, lightness)` triple of the
formatted `hsl(...)` string. -/
structure VisualProps where
  color : ℚ × ℚ × ℚ
  position_x : ℚ
  position_y : ℚ
  pulse_speed : ℕ
  size_factor : ℚ
  device_indicator : String
deriving DecidableEq

/-- Models `_generate_device_specific_visuals`; `none` models an uncaught
exception (IndexError from `entanglement_data[0]` / `[3]`, or KeyError from
`device_info[_type]` when the id is not in the registry). -/
def generate_device_specific_visuals (s : ServiceState) (env : Env)
    (existing : List (ℚ × ℚ)) (deviceId : String) (quantumNumber : ℕ)
    (entanglementData : List ℚ) : Option VisualProps :=
  let hue0 := pymod ((quantumNumber : ℚ) * 137.5) 360
  let hue :=
    if containsSub deviceId "ionq" then pymod (hue0 + 60) 360
    else if containsSub deviceId "iqm" then pymod (hue0 + 120) 360
    else if containsSub deviceId "quera" then pymod (hue0 + 180) 360
    else if containsSub deviceId "rigetti" then pymod (hue0 + 240) 360
    else if containsSub deviceId "aws" then pymod (hue0 + 300) 360
    else hue0
  let saturation := 70 + (entanglementData.foldl (· + ·) 0) * 30
  do
    let e0 ← entanglementData[0]?
    let lightness := 45 + e0 * 20
    let pos := generate_collision_free_position existing deviceId quantumNumber env.sampler
    let e3 ← entanglementData[3]?
    let info ← get_device_info s.deviceManager deviceId
    pure { color := (hue, saturation, lightness), position_x := pos.1, position_y := pos.2,
           pulse_speed := 2 + quantumNumber % 3, size_factor := 0.8 + e3 * 0.4,
           device_indicator := info.dtype }

/-- Models the public `EnhancedQuantumService.generate_visual_properties`,
which simply delegates. -/
def generate_visual_properties (s : ServiceState) (env : Env) (existing : List (ℚ × ℚ))
    (quantumNumber : ℕ) (entanglementData : List ℚ) (deviceId : String) :
    Option VisualProps :=
  generate_device_specific_visuals s env existing deviceId quantumNumber entanglementData

/-! ## Helper lemmas about the JobStore operations -/

theorem applyKwarg_submitted_at (j : Job) (v : String) :
    applyKwarg j ("submitted_at", v) = { j with submittedAt := some v } := rfl

theorem applyKwarg_completed_at (j : Job) (v : String) :
    applyKwarg j ("completed_at", v) = { j with completedAt := some v } := rfl

theorem applyKwarg_result_data (j : Job) (v : String) :
    applyKwarg j ("result_data", v) = { j with resultData := some v } := rfl

theorem applyKwarg_error_message (j : Job) (v : String) :
    applyKwarg j ("error_message", v) = { j with errorMessage := some v } := rfl

theorem applyKwarg_estimated_completion (j : Job) (v : String) :
    applyKwarg j ("estimated_completion", v) = { j with estimatedCompletion := some v } := rfl

theorem applyKwarg_signature_id (j : Job) (v : String) :
    applyKwarg j ("signature_id", v) = { j with signatureId := some v } := rfl

/-- One UPDATE clause never touches the identity columns or `status`. -/
theorem applyKwarg_frame (j : Job) (kv : String × String) :
    (applyKwarg j kv).jobId = j.jobId ∧ (applyKwarg j kv).deviceId = j.deviceId ∧
    (applyKwarg j kv).deviceArn = j.deviceArn ∧ (applyKwarg j kv).userName = j.userName ∧
    (applyKwarg j kv).userMessage = j.userMessage ∧ (applyKwarg j kv).createdAt = j.createdAt ∧
    (applyKwarg j kv).status = j.status := by
  unfold applyKwarg
  split <;> simp

/-- The keyword fold never touches the identity columns or `status`. -/
theorem applyKwargs_frame (kwargs : List (String × String)) (j : Job) :
    (applyKwargs j kwargs).jobId = j.jobId ∧ (applyKwargs j kwargs).deviceId = j.deviceId ∧
    (applyKwargs j kwargs).deviceArn = j.deviceArn ∧
    (applyKwargs j kwargs).userName = j.userName ∧
    (applyKwargs j kwargs).userMessage = j.userMessage ∧
    (applyKwargs j kwargs).createdAt = j.createdAt ∧
    (applyKwargs j kwargs).status = j.status := by
  induction kwargs generalizing j with
  | nil => exact ⟨rfl, rfl, rfl, rfl, rfl, rfl, rfl⟩
  | cons kv t ih =>
    have h1 := applyKwarg_frame j kv
    have h2 := ih (applyKwarg j kv)
    have he : applyKwargs j (kv :: t) = applyKwargs (applyKwarg j kv) t := rfl
    rw [he]
    exact ⟨h2.1.trans h1.1, h2.2.1.trans h1.2.1, h2.2.2.1.trans h1.2.2.1,
      h2.2.2.2.1.trans h1.2.2.2.1, h2.2.2.2.2.1.trans h1.2.2.2.2.1,
      h2.2.2.2.2.2.1.trans h1.2.2.2.2.2.1, h2.2.2.2.2.2.2.trans h1.2.2.2.2.2.2⟩

/-- A clause whose key does not name a given column leaves that column
alone. -/
theorem applyKwarg_untouched (j : Job) (kv : String × String) :
    (kv.1 ≠ "submitted_at" → (applyKwarg j kv).submittedAt = j.submittedAt) ∧
    (kv.1 ≠ "completed_at" → (applyKwarg j kv).completedAt = j.completedAt) ∧
    (kv.1 ≠ "result_data" → (applyKwarg j kv).resultData = j.resultData) ∧
    (kv.1 ≠ "error_message" → (applyKwarg j kv).errorMessage = j.errorMessage) ∧
    (kv.1 ≠ "estimated_completion" →
      (applyKwarg j kv).estimatedCompletion = j.estimatedCompletion) ∧
    (kv.1 ≠ "signature_id" → (applyKwarg j kv).signatureId = j.signatureId) := by
  unfold applyKwarg
  split <;> simp_all

/-- A keyword list that does not name a given column leaves that column
alone. -/
theorem applyKwargs_untouched (kwargs : List (String × String)) (j : Job) :
    ("submitted_at" ∉ kwargs.map Prod.fst →
      (applyKwargs j kwargs).submittedAt = j.submittedAt) ∧
    ("completed_at" ∉ kwargs.map Prod.fst →
      (applyKwargs j kwargs).completedAt = j.completedAt) ∧
    ("result_data" ∉ kwargs.map Prod.fst → (applyKwargs j kwargs).resultData = j.resultData) ∧
    ("error_message" ∉ kwargs.map Prod.fst →
      (applyKwargs j kwargs).errorMessage = j.errorMessage) ∧
    ("estimated_completion" ∉ kwargs.map Prod.fst →
      (applyKwargs j kwargs).estimatedCompletion = j.estimatedCompletion) ∧
    ("signature_id" ∉ kwargs.map Prod.fst → (applyKwargs j kwargs).signatureId = j.signatureId) := by
  induction kwargs generalizing j with
  | nil =>
    exact ⟨fun _ => rfl, fun _ => rfl, fun _ => rfl, fun _ => rfl, fun _ => rfl, fun _ => rfl⟩
  | cons kv t ih =>
    have h1 := applyKwarg_untouched j kv
    have h2 := ih (applyKwarg j kv)
    have he : applyKwargs j (kv :: t) = applyKwargs (applyKwarg j kv) t := rfl
    rw [he]
    simp only [List.map_cons, List.mem_cons, not_or] at *
    exact ⟨fun h => (h2.1 h.2).trans (h1.1 (fun hc => h.1 hc.symm)),
      fun h => (h2.2.1 h.2).trans (h1.2.1 (fun hc => h.1 hc.symm)),
      fun h => (h2.2.2.1 h.2).trans (h1.2.2.1 (fun hc => h.1 hc.symm)),
      fun h => (h2.2.2.2.1 h.2).trans (h1.2.2.2.1 (fun hc => h.1 hc.symm)),
      fun h => (h2.2.2.2.2.1 h.2).trans (h1.2.2.2.2.1 (fun hc => h.1 hc.symm)),
      fun h => (h2.2.2.2.2.2 h.2).trans (h1.2.2.2.2.2 (fun hc => h.1 hc.symm))⟩

/-- The row transform preserves `job_id`. -/
theorem updRow_jobId (jobId : ℕ) (status : String) (kwargs : List (String × String)) (j : Job) :
    (updRow jobId status kwargs j).jobId = j.jobId := by
  unfold updRow
  split
  · exact (applyKwargs_frame _ _).1
  · rfl

/-- The row transform is the identity on rows with a different id. -/
theorem updRow_of_ne (jobId : ℕ) (status : String) (kwargs : List (String × String)) (j : Job)
    (h : j.jobId ≠ jobId) : updRow jobId status kwargs j = j := by
  unfold updRow
  exact if_neg h

/-- The row transform overwrites `status` on the matching row. -/
theorem updRow_status_of_eq (jobId : ℕ) (status : String) (kwargs : List (String × String))
    (j : Job) (h : j.jobId = jobId) : (updRow jobId status kwargs j).status = status := by
  unfold updRow
  rw [if_pos h]
  exact (applyKwargs_frame _ _).2.2.2.2.2.2

/-- Reading any id through an UPDATE sees the transformed row. -/
theorem getJob_update (store : JobStore) (jobId : ℕ) (status : String)
    (kwargs : List (String × String)) (q : ℕ) :
    getJob (update_job_status store jobId status kwargs) q
      = (getJob store q).map (updRow jobId status kwargs) := by
  unfold getJob update_job_status
  have hp : ((fun j => j.jobId == q) ∘ updRow jobId status kwargs)
      = (fun j : Job => j.jobId == q) := by
    funext j
    simp [Function.comp, updRow_jobId]
  rw [List.find?_map, hp]

/-- An UPDATE never changes the number of rows. -/
theorem update_length (store : JobStore) (jobId : ℕ) (status : String)
    (kwargs : List (String × String)) :
    (update_job_status store jobId status kwargs).jobs.length = store.jobs.length :=
  List.length_map _ _

/-- Lookup distributes over the row list of an appended store. -/
theorem find?_jobs_append (l1 l2 : List Job) (q : ℕ) (h : ∀ j ∈ l1, j.jobId ≠ q) :
    (l1 ++ l2).find? (fun j => j.jobId == q) = l2.find? (fun j => j.jobId == q) := by
  rw [List.find?_append]
  have : l1.find? (fun j => j.jobId == q) = none := by
    rw [List.find?_eq_none]
    intro j hj
    simpa using h j hj
  rw [this]
  rfl

/-! ## Concrete fixtures used by the witnesses and counterexamples -/

/-- A seeded stream whose every draw is the midpoint of its range. -/
def halfStream : ℕ → ℕ → ℚ := fun _ _ => 1/2

/-- A seeded stream whose every draw is the top of its range. -/
def topStream : ℕ → ℕ → ℚ := fun _ _ => 1

/-- A deterministic environment for concrete runs. -/
def testEnv : Env :=
  { now := 100, runMeasure := fun _ _ => Except.ok 5, ahsRun := fun _ _ => Except.ok 9,
    bellRun := fun _ _ => Except.ok [1/4, 1/4, 1/4, 1/4], circuitHash := fun _ _ => 777,
    hashFallback := fun _ => 3, available := fun _ => true, sampler := halfStream }

/-- The empty job database. -/
def initialStore : JobStore := { jobs := [], nextId := 0 }

/-- A freshly constructed service (registry populated, no AWS session). -/
def initialService : ServiceState :=
  { deviceManager := initialDevices, jobStore := initialStore, circuitCache := [],
    awsDevices := [], awsSession := false }

/-- A job row that already reached the terminal status `completed`. -/
def terminalJob : Job :=
  { newJob 0 10 "local_simulator" "local://simulator" "Alice" "Hello" with
      status := "completed", resultData := some "final-result",
      completedAt := some "11" }

/-- A store holding exactly the one terminal job. -/
def c1Store : JobStore := { jobs := [terminalJob], nextId := 1 }

/-! ## C1 -/

/-- C1, counterexample: `update_job_status` has no terminal-state guard.  In a
store whose only job is `completed` with result payload `final-result`, a
further update overwrites both the status (back to `running`) and the result
payload, so a terminal job is not left unchanged. -/
theorem C1_terminal_update_counterexample :
    c1Store.jobs.map Job.status = ["completed"] ∧
    c1Store.jobs.map Job.resultData = [some "final-result"] ∧
    (update_job_status c1Store 0 "running" [("result_data", "overwritten")]).jobs.map Job.status
      = ["running"] ∧
    (update_job_status c1Store 0 "running" [("result_data", "overwritten")]).jobs.map
      Job.resultData = [some "overwritten"] := by
  decide

/-- C1, amended: updating an unknown job id is indeed a silent no-op (the
whole store is unchanged and nothing is raised), but a job in a terminal
state is not protected: an update on its id overwrites its status (and
whitelisted fields) exactly as on any other row. -/
theorem C1_terminal_update_amended (store : JobStore) (jid : ℕ) (status : String)
    (kwargs : List (String × String)) :
    ((∀ j ∈ store.jobs, j.jobId ≠ jid) → update_job_status store jid status kwargs = store) ∧
    (∀ j ∈ store.jobs, j.jobId = jid →
      ∃ j' ∈ (update_job_status store jid status kwargs).jobs,
        j'.jobId = jid ∧ j'.status = status) := by
  constructor
  · intro h
    unfold update_job_status
    have hmap : store.jobs.map (updRow jid status kwargs) = store.jobs := by
      have := List.map_congr_left (l := store.jobs) (f := updRow jid status kwargs) (g := id)
        (fun j hj => updRow_of_ne jid status kwargs j (h j hj))
      simpa using this
    rw [hmap]
  · intro j hj hid
    refine ⟨updRow jid status kwargs j, List.mem_map_of_mem _ hj, ?_, ?_⟩
    · rw [updRow_jobId]; exact hid
    · exact updRow_status_of_eq jid status kwargs j hid

/-- C1, witness: the amended statement applied to the concrete terminal-job
store, at an absent id (no-op) and at the terminal id (overwritten). -/
theorem C1_terminal_update_amended_witness :
    update_job_status c1Store 5 "running" [] = c1Store ∧
    ∃ j' ∈ (update_job_status c1Store 0 "running" []).jobs,
      j'.jobId = 0 ∧ j'.status = "running" :=
  ⟨(C1_terminal_update_amended c1Store 5 "running" []).1 (by decide),
   (C1_terminal_update_amended c1Store 0 "running" []).2 terminalJob (by decide) (by decide)⟩

/-! ## C9 -/

/-- Keys surviving the whitelist filter were already present in the call. -/
theorem notMem_map_fst_filter (key : String) (p : String × String → Bool)
    (kwargs : List (String × String)) (h : key ∉ kwargs.map Prod.fst) :
    key ∉ (kwargs.filter p).map Prod.fst := by
  intro hc
  obtain ⟨kv, hkv, hfst⟩ := List.mem_map.mp hc
  exact h (List.mem_map.mpr ⟨kv, List.mem_of_mem_filter hkv, hfst⟩)

/-- C9: an `update_job_status` call on an existing non-terminal job only
modifies the status column and the whitelisted columns named in the call —
keywords outside the whitelist are ignored (the call equals the call on the
filtered keyword list), every row with a different id reads back unchanged,
every row keeps its id, backend id/arn, user name, user message and creation
timestamp, and the target row keeps every whitelisted column the call did not
name. -/
theorem C9_update_partial_frame (store : JobStore) (jid : ℕ) (status : String)
    (kwargs : List (String × String)) (j : Job)
    (hj : getJob store jid = some j)
    (hterm : j.status ≠ "completed" ∧ j.status ≠ "failed") :
    (update_job_status store jid status kwargs
       = update_job_status store jid status
           (kwargs.filter fun kv => allowedKeys.contains kv.1)) ∧
    (∀ q, q ≠ jid → getJob (update_job_status store jid status kwargs) q = getJob store q) ∧
    (∀ k ∈ (update_job_status store jid status kwargs).jobs,
       ∃ k0 ∈ store.jobs, k.jobId = k0.jobId ∧ k.deviceId = k0.deviceId ∧
         k.deviceArn = k0.deviceArn ∧ k.userName = k0.userName ∧
         k.userMessage = k0.userMessage ∧ k.createdAt = k0.createdAt) ∧
    (∃ j', getJob (update_job_status store jid status kwargs) jid = some j' ∧
       j'.status = status ∧
       ("submitted_at" ∉ kwargs.map Prod.fst → j'.submittedAt = j.submittedAt) ∧
       ("completed_at" ∉ kwargs.map Prod.fst → j'.completedAt = j.completedAt) ∧
       ("result_data" ∉ kwargs.map Prod.fst → j'.resultData = j.resultData) ∧
       ("error_message" ∉ kwargs.map Prod.fst → j'.errorMessage = j.errorMessage) ∧
       ("estimated_completion" ∉ kwargs.map Prod.fst →
         j'.estimatedCompletion = j.estimatedCompletion) ∧
       ("signature_id" ∉ kwargs.map Prod.fst → j'.signatureId = j.signatureId)) := by
  have hjid : j.jobId = jid := by simpa using List.find?_some hj
  refine ⟨?_, ?_, ?_, ?_⟩
  · have hfilter : ∀ j0 : Job, updRow jid status kwargs j0
        = updRow jid status (kwargs.filter fun kv => allowedKeys.contains kv.1) j0 := by
      intro j0
      unfold updRow
      rw [List.filter_filter]
      simp [Bool.and_self]
    unfold update_job_status
    rw [List.map_congr_left (fun j0 _ => hfilter j0)]
  · intro q hq
    rw [getJob_update]
    rcases hgq : getJob store q with _ | k
    · rfl
    · have hk : k.jobId = q := by simpa using List.find?_some hgq
      simp only [Option.map_some']
      rw [updRow_of_ne jid status kwargs k (by rw [hk]; exact hq)]
  · intro k hk
    simp only [update_job_status] at hk
    obtain ⟨k0, hk0, rfl⟩ := List.mem_map.mp hk
    refine ⟨k0, hk0, ?_⟩
    unfold updRow
    split
    · have hfr := applyKwargs_frame (kwargs.filter fun kv => allowedKeys.contains kv.1)
        { k0 with status := status }
      exact ⟨hfr.1, hfr.2.1, hfr.2.2.1, hfr.2.2.2.1, hfr.2.2.2.2.1, hfr.2.2.2.2.2.1⟩
    · exact ⟨rfl, rfl, rfl, rfl, rfl, rfl⟩
  · have hrow : updRow jid status kwargs j
        = applyKwargs { j with status := status }
            (kwargs.filter fun kv => allowedKeys.contains kv.1) := by
      unfold updRow
      rw [if_pos hjid]
    have hu := applyKwargs_untouched (kwargs.filter fun kv => allowedKeys.contains kv.1)
      { j with status := status }
    refine ⟨updRow jid status kwargs j, ?_, updRow_status_of_eq jid status kwargs j hjid,
      ?_, ?_, ?_, ?_, ?_, ?_⟩
    · rw [getJob_update, hj]
      rfl
    · intro hni
      rw [hrow]
      exact hu.1 (notMem_map_fst_filter _ _ _ hni)
    · intro hni
      rw [hrow]
      exact hu.2.1 (notMem_map_fst_filter _ _ _ hni)
    · intro hni
      rw [hrow]
      exact hu.2.2.1 (notMem_map_fst_filter _ _ _ hni)
    · intro hni
      rw [hrow]
      exact hu.2.2.2.1 (notMem_map_fst_filter _ _ _ hni)
    · intro hni
      rw [hrow]
      exact hu.2.2.2.2.1 (notMem_map_fst_filter _ _ _ hni)
    · intro hni
      rw [hrow]
      exact hu.2.2.2.2.2 (notMem_map_fst_filter _ _ _ hni)

/-- A two-row store with non-terminal jobs, for the C9 witness. -/
def c9Store : JobStore :=
  { jobs := [newJob 0 10 "ionq_forte" "arn-a" "Alice" "Hi",
             newJob 1 11 "aws_sv1" "arn-b" "Bob" "Yo"], nextId := 2 }

/-- C9, witness: the frame statement applied to a concrete two-row store with
an update naming one whitelisted and one unknown keyword. -/
theorem C9_update_partial_frame_witness :
    (update_job_status c9Store 0 "running" [("result_data", "x"), ("bogus_key", "y")]
       = update_job_status c9Store 0 "running"
           ([("result_data", "x"), ("bogus_key", "y")].filter
             fun kv => allowedKeys.contains kv.1)) ∧
    getJob (update_job_status c9Store 0 "running" [("result_data", "x"), ("bogus_key", "y")]) 1
       = getJob c9Store 1 :=
  ⟨(C9_update_partial_frame c9Store 0 "running" [("result_data", "x"), ("bogus_key", "y")]
      (newJob 0 10 "ionq_forte" "arn-a" "Alice" "Hi") (by decide) (by decide)).1,
   (C9_update_partial_frame c9Store 0 "running" [("result_data", "x"), ("bogus_key", "y")]
      (newJob 0 10 "ionq_forte" "arn-a" "Alice" "Hi") (by decide) (by decide)).2.1 1
      (by decide)⟩

/-! ## State-frame lemmas for the generator -/

/-- A cache hit evaluates to the perturbed base with the state unchanged. -/
theorem genQRN_hit (s : ServiceState) (env : Env) (deviceId seed : String) (base : ℕ)
    (h : s.circuitCache.lookup (cacheKeyOf deviceId seed) = some base) :
    generate_quantum_random_number s env deviceId seed = ((base + env.now) % 1000, s) := by
  simp [generate_quantum_random_number, h]

/-- A cache miss on a non-QuEra id runs `_execute_on_device` and caches. -/
theorem genQRN_miss_nonquera (s : ServiceState) (env : Env) (deviceId seed : String)
    (hm : s.circuitCache.lookup (cacheKeyOf deviceId seed) = none)
    (hq : containsSub deviceId "quera" = false) :
    generate_quantum_random_number s env deviceId seed
      = (execute_on_device s env deviceId seed,
         { s with circuitCache :=
            (cacheKeyOf deviceId seed, execute_on_device s env deviceId seed)
              :: s.circuitCache }) := by
  simp [generate_quantum_random_number, hm, hq]

/-- The random-number generator only ever writes the result cache: every
other component of the state is unchanged. -/
theorem genQRN_state_frame (s : ServiceState) (env : Env) (d seed : String) :
    (generate_quantum_random_number s env d seed).2.deviceManager = s.deviceManager ∧
    (generate_quantum_random_number s env d seed).2.jobStore = s.jobStore ∧
    (generate_quantum_random_number s env d seed).2.awsDevices = s.awsDevices ∧
    (generate_quantum_random_number s env d seed).2.awsSession = s.awsSession := by
  rcases h : List.lookup (cacheKeyOf d seed) s.circuitCache with _ | base
  · rcases hq : containsSub d "quera" with _ | _
    · simp [generate_quantum_random_number, h, hq]
    · rcases ha : env.ahsRun d seed with e | n <;>
        simp [generate_quantum_random_number, h, hq, ha]
  · simp [generate_quantum_random_number, h]

/-- The random-number generator never touches the registry. -/
theorem genQRN_deviceManager (s : ServiceState) (env : Env) (d seed : String) :
    (generate_quantum_random_number s env d seed).2.deviceManager = s.deviceManager :=
  (genQRN_state_frame s env d seed).1

/-- The random-number generator never touches the job store. -/
theorem genQRN_jobStore (s : ServiceState) (env : Env) (d seed : String) :
    (generate_quantum_random_number s env d seed).2.jobStore = s.jobStore :=
  (genQRN_state_frame s env d seed).2.1

/-- The random-number generator never touches the AWS bookkeeping. -/
theorem genQRN_awsDevices (s : ServiceState) (env : Env) (d seed : String) :
    (generate_quantum_random_number s env d seed).2.awsDevices = s.awsDevices :=
  (genQRN_state_frame s env d seed).2.2.1

/-- The random-number generator never changes the session flag. -/
theorem genQRN_awsSession (s : ServiceState) (env : Env) (d seed : String) :
    (generate_quantum_random_number s env d seed).2.awsSession = s.awsSession :=
  (genQRN_state_frame s env d seed).2.2.2

/-! ## C7 -/

/-- An environment one second into the epoch. -/
def c7Env1 : Env := { testEnv with now := 1 }

/-- An environment at a time whose whole-second clock is a multiple of 1000
(strictly after `c7Env1`). -/
def c7Env2 : Env := { testEnv with now := 2000 }

/-- C7, counterexample: the first (miss) call returns the raw base result
`5` and caches it; a second call with the identical key at the strictly
later clock `2000` answers `(5 + 2000) % 1000 = 5` — bit-identical to the
first returned value, contradicting that a later cache hit is never
bit-identical to the first call's value. -/
theorem C7_cache_hit_counterexample :
    (generate_quantum_random_number initialService c7Env1 "local_simulator" "seed-a").1 = 5 ∧
    ((generate_quantum_random_number initialService c7Env1 "local_simulator"
        "seed-a").2.circuitCache.lookup (cacheKeyOf "local_simulator" "seed-a") = some 5) ∧
    c7Env1.now < c7Env2.now ∧
    (generate_quantum_random_number
        (generate_quantum_random_number initialService c7Env1 "local_simulator" "seed-a").2
        c7Env2 "local_simulator" "seed-a").1
      = (generate_quantum_random_number initialService c7Env1 "local_simulator" "seed-a").1 := by
  decide

/-- C7, amended: a cache hit answers `(base + now) % 1000` — derived from the
memoized base, leaving the state (hence the base) unchanged, and varying with
the clock (two hit times differing modulo 1000 give different values) — but
it is not guaranteed to differ from the value the first (miss) call returned:
the miss call returns the raw base, which the hit reproduces whenever the
clock is congruent to 0 modulo 1000. -/
theorem C7_cache_hit_amended (s : ServiceState) (env env2 : Env) (deviceId seed : String)
    (base : ℕ)
    (h : s.circuitCache.lookup (cacheKeyOf deviceId seed) = some base) :
    (generate_quantum_random_number s env deviceId seed).1 = (base + env.now) % 1000 ∧
    (generate_quantum_random_number s env deviceId seed).2 = s ∧
    (env.now % 1000 ≠ env2.now % 1000 →
      (generate_quantum_random_number s env deviceId seed).1
        ≠ (generate_quantum_random_number s env2 deviceId seed).1) := by
  rw [genQRN_hit s env deviceId seed base h, genQRN_hit s env2 deviceId seed base h]
  refine ⟨rfl, rfl, ?_⟩
  intro hne
  have hmod : (base + env.now) % 1000 ≠ (base + env2.now) % 1000 := by omega
  simpa using hmod

/-- A service whose cache already memoizes base `5` under the key of
`("local_simulator", "seed-a")`. -/
def c7CachedService : ServiceState :=
  { initialService with circuitCache := [(cacheKeyOf "local_simulator" "seed-a", 5)] }

/-- C7, witness: the amended statement at the concrete cached service and the
two concrete clocks `1` and `2000`. -/
theorem C7_cache_hit_amended_witness :
    (generate_quantum_random_number c7CachedService c7Env1 "local_simulator" "seed-a").1
      = (5 + 1) % 1000 ∧
    (generate_quantum_random_number c7CachedService c7Env1 "local_simulator" "seed-a").2
      = c7CachedService ∧
    (generate_quantum_random_number c7CachedService c7Env1 "local_simulator" "seed-a").1
      ≠ (generate_quantum_random_number c7CachedService c7Env2 "local_simulator" "seed-a").1 := by
  have h := C7_cache_hit_amended c7CachedService c7Env1 c7Env2 "local_simulator" "seed-a" 5
    (by decide)
  exact ⟨h.1, h.2.1, h.2.2 (by decide)⟩

/-! ## C8 -/

/-- The capability content of a registry record: every field except the two
run-time status keys. -/
def coreFields (d : DeviceInfo) : String × String × String × String × ℕ × Bool × Bool :=
  (d.name, d.dtype, d.arn, d.region, d.maxQubits, d.supportsBellStates, d.asyncRequired)

/-- Decorating a record only writes the two status keys. -/
theorem coreFields_enrich (s : ServiceState) (deviceId : String) (d : DeviceInfo) :
    coreFields (enrichDevice s deviceId d) = coreFields d := by
  unfold enrichDevice
  split
  · rfl
  · split
    · rfl
    · split <;> rfl

/-- C8, counterexample: the device-listing operation is not read-only on the
registry.  On a fresh service the stored `local_simulator` record has no
`status` key; after one `get_available_devices` call the stored record
carries `status = "Always Available"` (and the stored dict list has
changed). -/
theorem C8_registry_mutation_counterexample :
    ((initialService.deviceManager.lookup "local_simulator").map DeviceInfo.status
      = some none) ∧
    (((get_available_devices initialService).deviceManager.lookup "local_simulator").map
        DeviceInfo.status = some (some "Always Available")) ∧
    (get_available_devices initialService).deviceManager ≠ initialService.deviceManager := by
  decide

/-- C8, amended: the capability content of every stored record (name, type,
arn, region, qubit count, feature flags) is immutable — `get_available_devices`
only writes the run-time `status` / `aws_configured` keys into the stored
records, and neither the orchestrator entry point nor the background worker
touches the registry at all. -/
theorem C8_core_capabilities_immutable (s : ServiceState) (env : Env)
    (name response dev : String) (t : BgTask) :
    ((get_available_devices s).deviceManager.map fun p => (p.1, coreFields p.2))
      = (s.deviceManager.map fun p => (p.1, coreFields p.2)) ∧
    (process_quantum_signature s env name response dev).2.1.deviceManager = s.deviceManager ∧
    (process_quantum_job_for_signature s env t).deviceManager = s.deviceManager := by
  refine ⟨?_, ?_, ?_⟩
  · unfold get_available_devices
    simp only [List.map_map]
    apply List.map_congr_left
    intro p _
    simp [Function.comp, coreFields_enrich]
  · unfold process_quantum_signature
    rcases hd : get_device_info s.deviceManager dev with _ | info
    · simp only [hd]
    · rcases hb : info.asyncRequired with _ | _ <;>
        simp [hd, hb, genQRN_deviceManager]
  · unfold process_quantum_job_for_signature
    rcases hd : get_device_info s.deviceManager t.deviceId with _ | info
    · simp only [hd]
    · simp [hd, genQRN_deviceManager]

/-! ## C4 -/

/-- C4, counterexample: with an unknown backend selector, the very first step
of `process_quantum_signature` is the registry lookup, whose failure returns
before any job is created — so at the moment of the synchronous failure the
job store holds no fast-track job (here: no row at all, the state is exactly
the initial one), contradicting that the fast-track job was created and
executed before the lookup. -/
theorem C4_unknown_device_counterexample :
    (process_quantum_signature initialService testEnv "Alice" "Hello"
        "missing_device").1.success = false ∧
    (process_quantum_signature initialService testEnv "Alice" "Hello"
        "missing_device").2.1.jobStore.jobs = [] ∧
    (process_quantum_signature initialService testEnv "Alice" "Hello"
        "missing_device").2.1 = initialService := by
  decide

/-- C4, amended: an unknown backend selector does fail synchronously with the
unknown-device error, but the selected-backend lookup is step one of the
algorithm: the failure happens before the fast-track job is created, so no
job row exists on account of this call (the state is untouched) and no
background work is spawned. -/
theorem C4_unknown_device_fails_before_jobs (s : ServiceState) (env : Env)
    (name response dev : String)
    (h : get_device_info s.deviceManager dev = none) :
    (process_quantum_signature s env name response dev).1.success = false ∧
    (process_quantum_signature s env name response dev).1.error
      = some ("Unknown quantum device: " ++ dev) ∧
    (process_quantum_signature s env name response dev).2.1 = s ∧
    (process_quantum_signature s env name response dev).2.2 = [] := by
  simp [process_quantum_signature, h]

/-- C4, witness: the amended statement at a concrete fresh service and an
unregistered id. -/
theorem C4_unknown_device_fails_before_jobs_witness :
    (process_quantum_signature initialService testEnv "Ada" "Hey"
        "not_a_device").1.success = false ∧
    (process_quantum_signature initialService testEnv "Ada" "Hey" "not_a_device").1.error
      = some ("Unknown quantum device: " ++ "not_a_device") ∧
    (process_quantum_signature initialService testEnv "Ada" "Hey" "not_a_device").2.1
      = initialService ∧
    (process_quantum_signature initialService testEnv "Ada" "Hey" "not_a_device").2.2 = [] :=
  C4_unknown_device_fails_before_jobs initialService testEnv "Ada" "Hey" "not_a_device"
    (by decide)

/-! ## C3 -/

/-- C3, counterexample: `create_entry` with the fast-track backend itself as
the selected backend (`local_simulator` twice) still creates a second job:
the returned slow-track id `1` differs from the fast-track id `0`, and two
rows are inserted into the store. -/
theorem C3_same_backend_counterexample :
    (process_quantum_signature initialService testEnv "Alice" "Hello"
        "local_simulator").1.localJobId = some 0 ∧
    (process_quantum_signature initialService testEnv "Alice" "Hello"
        "local_simulator").1.deviceJobId = some 1 ∧
    (process_quantum_signature initialService testEnv "Alice" "Hello"
        "local_simulator").1.deviceJobId
      ≠ (process_quantum_signature initialService testEnv "Alice" "Hello"
          "local_simulator").1.localJobId ∧
    (process_quantum_signature initialService testEnv "Alice" "Hello"
        "local_simulator").2.1.jobStore.jobs.length = 2 := by
  decide

/-- C3, amended: for every known selected backend — including the fast-track
backend itself — `process_quantum_signature` unconditionally creates two
jobs: the returned slow-track job id is the successor of the fast-track job
id (never equal to it) and exactly two rows are inserted. -/
theorem C3_second_job_always_created (s : ServiceState) (env : Env)
    (name response dev : String) (info : DeviceInfo)
    (h : get_device_info s.deviceManager dev = some info) :
    (process_quantum_signature s env name response dev).1.localJobId
      = some s.jobStore.nextId ∧
    (process_quantum_signature s env name response dev).1.deviceJobId
      = some (s.jobStore.nextId + 1) ∧
    (process_quantum_signature s env name response dev).1.localJobId
      ≠ (process_quantum_signature s env name response dev).1.deviceJobId ∧
    (process_quantum_signature s env name response dev).2.1.jobStore.jobs.length
      = s.jobStore.jobs.length + 2 := by
  rcases hb : info.asyncRequired with _ | _ <;>
    simp [process_quantum_signature, h, hb, create_job, update_job_status, genQRN_jobStore,
      List.length_map, List.length_append]

/-- C3, witness: the amended statement at the concrete fresh service with the
coincident selection `local_simulator`. -/
theorem C3_second_job_always_created_witness :
    (process_quantum_signature initialService testEnv "Bob" "Hi"
        "local_simulator").1.localJobId = some initialService.jobStore.nextId ∧
    (process_quantum_signature initialService testEnv "Bob" "Hi"
        "local_simulator").1.deviceJobId = some (initialService.jobStore.nextId + 1) ∧
    (process_quantum_signature initialService testEnv "Bob" "Hi"
        "local_simulator").1.localJobId
      ≠ (process_quantum_signature initialService testEnv "Bob" "Hi"
          "local_simulator").1.deviceJobId ∧
    (process_quantum_signature initialService testEnv "Bob" "Hi"
        "local_simulator").2.1.jobStore.jobs.length
      = initialService.jobStore.jobs.length + 2 :=
  C3_second_job_always_created initialService testEnv "Bob" "Hi" "local_simulator"
    (mkDevice "Local Simulator" "simulator" "local://simulator" "local" 34 true false)
    (by decide)


/-! ## C6 -/

/-- Field accessor of the freshly inserted row. -/
theorem newJob_jobId (id now : ℕ) (a b c d : String) : (newJob id now a b c d).jobId = id := rfl

/-- The `running` update on the matching row only overwrites the status. -/
theorem updRow_running_id (j : Job) (n : ℕ) (hid : j.jobId = n) :
    updRow n "running" [] j = { j with status := "running" } := by
  unfold updRow
  rw [if_pos hid]
  rfl

/-- The completion update on the matching row writes status, completion time
and result payload. -/
theorem updRow_completed_id (ts res : String) (j : Job) (n : ℕ) (hid : j.jobId = n) :
    updRow n "completed" [("completed_at", ts), ("result_data", res)] j
      = { j with status := "completed", completedAt := some ts, resultData := some res } := by
  unfold updRow
  rw [if_pos hid]
  rfl

/-- Reading the first of the two just-created rows. -/
theorem getJob_append_two_left (l : List Job) (a b : Job) (nid q : ℕ)
    (hl : ∀ j ∈ l, j.jobId ≠ q) (haq : a.jobId = q) :
    getJob { jobs := l ++ [a] ++ [b], nextId := nid } q = some a := by
  unfold getJob
  rw [List.append_assoc, List.singleton_append, find?_jobs_append l (a :: [b]) q hl,
    List.find?_cons_of_pos _ (by simp [haq])]

/-- Reading the second of the two just-created rows. -/
theorem getJob_append_two_right (l : List Job) (a b : Job) (nid q : ℕ)
    (hl : ∀ j ∈ l, j.jobId ≠ q) (haq : a.jobId ≠ q) (hbq : b.jobId = q) :
    getJob { jobs := l ++ [a] ++ [b], nextId := nid } q = some b := by
  unfold getJob
  rw [List.append_assoc, List.singleton_append, find?_jobs_append l (a :: [b]) q hl,
    List.find?_cons_of_neg _ (by simpa using haq), List.find?_cons_of_pos _ (by simp [hbq])]

/-- After the fast-track run-and-complete update pair, the second created row
(the slow-track job) is still exactly as inserted. -/
theorem bgRowUntouched (l : List Job) (a b : Job) (nid n : ℕ) (ts res : String)
    (haid : a.jobId = n) (hbid : b.jobId = n + 1) (hl : ∀ j ∈ l, j.jobId ≠ n + 1) :
    Option.map Job.status (getJob (update_job_status (update_job_status
      { jobs := l ++ [a] ++ [b], nextId := nid } n "running" []) n "completed"
      [("completed_at", ts), ("result_data", res)]) (n + 1)) = some b.status := by
  rw [getJob_update, getJob_update,
    getJob_append_two_right l a b nid (n + 1) hl (by rw [haid]; omega) hbid,
    Option.map_some', Option.map_some',
    updRow_of_ne _ _ _ _ (by rw [updRow_jobId, hbid]; omega),
    updRow_of_ne _ _ _ _ (by rw [hbid]; omega), Option.map_some']

/-- After the fast-track run-and-complete update pair, the first created row
carries status `completed`. -/
theorem localRowCompletedStatus (l : List Job) (a b : Job) (nid n : ℕ) (ts res : String)
    (haid : a.jobId = n) (hl : ∀ j ∈ l, j.jobId ≠ n) :
    Option.map Job.status (getJob (update_job_status (update_job_status
      { jobs := l ++ [a] ++ [b], nextId := nid } n "running" []) n "completed"
      [("completed_at", ts), ("result_data", res)]) n) = some "completed" := by
  rw [getJob_update, getJob_update, getJob_append_two_left l a b nid n hl haid,
    Option.map_some', Option.map_some', updRow_running_id a n haid,
    updRow_completed_id ts res { a with status := "running" } n haid, Option.map_some']

/-- After the fast-track run-and-complete update pair, the first created row
carries the completion result payload. -/
theorem localRowResultData (l : List Job) (a b : Job) (nid n : ℕ) (ts res : String)
    (haid : a.jobId = n) (hl : ∀ j ∈ l, j.jobId ≠ n) :
    Option.map Job.resultData (getJob (update_job_status (update_job_status
      { jobs := l ++ [a] ++ [b], nextId := nid } n "running" []) n "completed"
      [("completed_at", ts), ("result_data", res)]) n) = some (some res) := by
  rw [getJob_update, getJob_update, getJob_append_two_left l a b nid n hl haid,
    Option.map_some', Option.map_some', updRow_running_id a n haid,
    updRow_completed_id ts res { a with status := "running" } n haid, Option.map_some']

/-- C6: against an asynchronous-class backend, `process_quantum_signature`
returns success immediately: the response carries the fast-track value and
correlation vector — exactly the payload recorded on the completed fast-track
job row — together with the pending (still `created`) slow-track job id and
the single unexecuted background task for that job; no device-side value is
present in the response. -/
theorem C6_async_immediate_return (s : ServiceState) (env : Env)
    (name response dev : String) (info : DeviceInfo)
    (h : get_device_info s.deviceManager dev = some info)
    (ha : info.asyncRequired = true)
    (hwf : ∀ j ∈ s.jobStore.jobs, j.jobId < s.jobStore.nextId) :
    (process_quantum_signature s env name response dev).1.success = true ∧
    (process_quantum_signature s env name response dev).1.deviceJobId
      = some (s.jobStore.nextId + 1) ∧
    (process_quantum_signature s env name response dev).2.2
      = [{ jobId := s.jobStore.nextId + 1, deviceId := dev, name := name,
           response := response }] ∧
    ((getJob (process_quantum_signature s env name response dev).2.1.jobStore
        (s.jobStore.nextId + 1)).map Job.status = some "created") ∧
    (∃ qn ent, (process_quantum_signature s env name response dev).1.quantumNumber = some qn ∧
       (process_quantum_signature s env name response dev).1.entanglementData = some ent ∧
       (process_quantum_signature s env name response dev).1.deviceQuantumNumber = none ∧
       ((getJob (process_quantum_signature s env name response dev).2.1.jobStore
           s.jobStore.nextId).map Job.status = some "completed") ∧
       ((getJob (process_quantum_signature s env name response dev).2.1.jobStore
           s.jobStore.nextId).map Job.resultData
         = some (some (resultDataJson qn ent "Local Simulator" "simulator")))) := by
  have hl1 : ∀ j ∈ s.jobStore.jobs, j.jobId ≠ s.jobStore.nextId :=
    fun j hj => Nat.ne_of_lt (hwf j hj)
  have hl2 : ∀ j ∈ s.jobStore.jobs, j.jobId ≠ s.jobStore.nextId + 1 := by
    intro j hj
    have := hwf j hj
    omega
  simp only [process_quantum_signature, h, ha, create_job, if_true]
  refine ⟨trivial, trivial, trivial, ?_, ?_⟩
  · simp only [genQRN_jobStore]
    exact bgRowUntouched _ _ _ _ _ _ _ rfl rfl hl2
  · refine ⟨_, _, rfl, rfl, trivial, ?_, ?_⟩
    · simp only [genQRN_jobStore]
      exact localRowCompletedStatus _ _ _ _ _ _ _ rfl hl1
    · simp only [genQRN_jobStore]
      exact localRowResultData _ _ _ _ _ _ _ rfl hl1

/-- C6, witness: the statement at the concrete fresh service against the
asynchronous backend `ionq_forte`. -/
theorem C6_async_immediate_return_witness :
    (process_quantum_signature initialService testEnv "Alice" "Hello" "ionq_forte").1.success
      = true ∧
    (process_quantum_signature initialService testEnv "Alice" "Hello"
        "ionq_forte").1.deviceJobId = some 1 ∧
    (process_quantum_signature initialService testEnv "Alice" "Hello" "ionq_forte").2.2
      = [{ jobId := 1, deviceId := "ionq_forte", name := "Alice", response := "Hello" }] ∧
    ((getJob (process_quantum_signature initialService testEnv "Alice" "Hello"
        "ionq_forte").2.1.jobStore 1).map Job.status = some "created") ∧
    (∃ qn ent,
       (process_quantum_signature initialService testEnv "Alice" "Hello"
          "ionq_forte").1.quantumNumber = some qn ∧
       (process_quantum_signature initialService testEnv "Alice" "Hello"
          "ionq_forte").1.entanglementData = some ent ∧
       (process_quantum_signature initialService testEnv "Alice" "Hello"
          "ionq_forte").1.deviceQuantumNumber = none ∧
       ((getJob (process_quantum_signature initialService testEnv "Alice" "Hello"
           "ionq_forte").2.1.jobStore 0).map Job.status = some "completed") ∧
       ((getJob (process_quantum_signature initialService testEnv "Alice" "Hello"
           "ionq_forte").2.1.jobStore 0).map Job.resultData
         = some (some (resultDataJson qn ent "Local Simulator" "simulator")))) :=
  C6_async_immediate_return initialService testEnv "Alice" "Hello" "ionq_forte"
    (mkDevice "IonQ Forte Enterprise" "qpu"
      "arn:aws:braket:us-east-1::device/qpu/ionq/Forte-Enterprise-1" "us-east-1" 32 true true)
    (by decide) rfl (by decide)

/-! ## C2 -/

/-- The submission update on the matching row writes status, submission time
and the completion estimate. -/
theorem updRow_submitted_id (sub ec : String) (j : Job) (n : ℕ) (hid : j.jobId = n) :
    updRow n "submitted" [("submitted_at", sub), ("estimated_completion", ec)] j
      = { j with status := "submitted", submittedAt := some sub, estimatedCompletion := some ec } := by
  unfold updRow
  rw [if_pos hid]
  rfl

/-- The completion update puts the result payload on the matching row. -/
theorem updRow_completed_resultData (ts res : String) (j : Job) (n : ℕ) (hid : j.jobId = n) :
    (updRow n "completed" [("completed_at", ts), ("result_data", res)] j).resultData
      = some res := by
  rw [updRow_completed_id ts res j n hid]

/-- After the background submitted/running/completed update chain, the job row
reads back `completed` and carries the completion result payload. -/
theorem bgStoreCompleted (st : JobStore) (tid : ℕ) (sub ec ts res : String) (j0 : Job)
    (hjob : getJob st tid = some j0) :
    ((getJob (update_job_status (update_job_status (update_job_status st tid "submitted"
        [("submitted_at", sub), ("estimated_completion", ec)]) tid "running" []) tid
        "completed" [("completed_at", ts), ("result_data", res)]) tid).map Job.status
      = some "completed") ∧
    ((getJob (update_job_status (update_job_status (update_job_status st tid "submitted"
        [("submitted_at", sub), ("estimated_completion", ec)]) tid "running" []) tid
        "completed" [("completed_at", ts), ("result_data", res)]) tid).map Job.resultData
      = some (some res)) := by
  have hjid : j0.jobId = tid := by simpa using List.find?_some hjob
  have hid2 : (updRow tid "running" []
      (updRow tid "submitted" [("submitted_at", sub), ("estimated_completion", ec)]
        j0)).jobId = tid := by
    rw [updRow_jobId, updRow_jobId]
    exact hjid
  constructor
  · rw [getJob_update, getJob_update, getJob_update, hjob]
    simp only [Option.map_some']
    rw [updRow_status_of_eq _ _ _ _ hid2]
  · rw [getJob_update, getJob_update, getJob_update, hjob]
    simp only [Option.map_some']
    rw [updRow_completed_resultData _ _ _ _ hid2]

/-- The generator ignores the job store: running it with a modified job store
gives the same value and the same cache, carrying the modified store along. -/
theorem genQRN_jobStore_mod (s : ServiceState) (st : JobStore) (env : Env) (d seed : String) :
    generate_quantum_random_number { s with jobStore := st } env d seed
      = ((generate_quantum_random_number s env d seed).1,
         { (generate_quantum_random_number s env d seed).2 with jobStore := st }) := by
  rcases hlk : List.lookup (cacheKeyOf d seed) s.circuitCache with _ | base
  · rcases hq : containsSub d "quera" with _ | _
    · simp [generate_quantum_random_number, hlk, hq]
      rfl
    · rcases ha : env.ahsRun d seed with e | n <;>
        simp [generate_quantum_random_number, hlk, hq, ha]
  · simp [generate_quantum_random_number, hlk]

/-- Unavailability with no `aws_sv1` handle: the internal raise is swallowed
and the circuit-hash fallback is returned. -/
theorem execute_unavailable_no_fallback (s : ServiceState) (env : Env) (d seed : String)
    (hloc : d ≠ "local_simulator") (hins : d ∈ s.awsDevices) (hsess : s.awsSession = true)
    (hav : check_device_availability s env d = false) (hnofb : "aws_sv1" ∉ s.awsDevices) :
    execute_on_device s env d seed = env.circuitHash d seed % 1000 := by
  simp [execute_on_device, executeOnDeviceInner, hloc, hins, hsess, hav, hnofb]

/-- Unavailability with an `aws_sv1` handle: the run is substituted onto the
fallback simulator. -/
theorem execute_unavailable_with_fallback (s : ServiceState) (env : Env) (d seed : String)
    (v : ℕ)
    (hloc : d ≠ "local_simulator") (hins : d ∈ s.awsDevices) (hsess : s.awsSession = true)
    (hav : check_device_availability s env d = false) (hfb : "aws_sv1" ∈ s.awsDevices)
    (hrun : env.runMeasure "aws_sv1" seed = Except.ok v) :
    execute_on_device s env d seed = v := by
  simp [execute_on_device, executeOnDeviceInner, hloc, hins, hsess, hav, hfb, hrun]

/-- C2, amended: in the background protocol, when the availability check for
the target backend reports unavailable, the job is never marked `failed`:
with an `aws_sv1` fallback handle the computation is substituted onto the
fallback and the job completes with the substituted run's value; with no
fallback, the internal unavailability exception is swallowed by
`_execute_on_device`'s catch-all and the job still completes — with the
deterministic circuit-hash fallback value — rather than failing with
`DeviceUnavailable`. -/
theorem C2_background_unavailable (s : ServiceState) (env : Env) (t : BgTask)
    (info : DeviceInfo) (j0 : Job)
    (h : get_device_info s.deviceManager t.deviceId = some info)
    (hloc : t.deviceId ≠ "local_simulator")
    (hq : containsSub t.deviceId "quera" = false)
    (hins : t.deviceId ∈ s.awsDevices)
    (hsess : s.awsSession = true)
    (hav : check_device_availability s env t.deviceId = false)
    (hmiss : s.circuitCache.lookup
      (cacheKeyOf t.deviceId (seedOf t.name t.response "" env.now)) = none)
    (hjob : getJob s.jobStore t.jobId = some j0) :
    ((getJob (process_quantum_job_for_signature s env t).jobStore t.jobId).map Job.status
        = some "completed") ∧
    ("aws_sv1" ∉ s.awsDevices →
      ∃ ent, (getJob (process_quantum_job_for_signature s env t).jobStore t.jobId).map
          Job.resultData
        = some (some (resultDataJson
            (env.circuitHash t.deviceId (seedOf t.name t.response "" env.now) % 1000)
            ent info.name info.dtype))) ∧
    (∀ v, "aws_sv1" ∈ s.awsDevices →
      env.runMeasure "aws_sv1" (seedOf t.name t.response "" env.now) = Except.ok v →
      ∃ ent, (getJob (process_quantum_job_for_signature s env t).jobStore t.jobId).map
          Job.resultData
        = some (some (resultDataJson v ent info.name info.dtype))) := by
  simp only [process_quantum_job_for_signature, h]
  refine ⟨?_, ?_, ?_⟩
  · simp only [genQRN_jobStore_mod]
    exact (bgStoreCompleted s.jobStore t.jobId _ _ _ _ j0 hjob).1
  · intro hnofb
    simp only [genQRN_jobStore_mod]
    rw [genQRN_miss_nonquera s env _ _ hmiss hq]
    rw [execute_unavailable_no_fallback s env _ _ hloc hins hsess hav hnofb]
    exact ⟨_, (bgStoreCompleted s.jobStore t.jobId _ _ _ _ j0 hjob).2⟩
  · intro v hfb hrun
    simp only [genQRN_jobStore_mod]
    rw [genQRN_miss_nonquera s env _ _ hmiss hq]
    rw [execute_unavailable_with_fallback s env _ _ v hloc hins hsess hav hfb hrun]
    exact ⟨_, (bgStoreCompleted s.jobStore t.jobId _ _ _ _ j0 hjob).2⟩

/-- A created job row for `ionq_forte`. -/
def c2Job : Job :=
  newJob 0 40 "ionq_forte" "arn:aws:braket:us-east-1::device/qpu/ionq/Forte-Enterprise-1"
    "Alice" "Hello"

/-- A service holding one created job for `ionq_forte`, an AWS session, and a
device handle only for `ionq_forte` (no `aws_sv1` fallback). -/
def c2State : ServiceState :=
  { deviceManager := initialDevices, jobStore := { jobs := [c2Job], nextId := 1 },
    circuitCache := [], awsDevices := ["ionq_forte"], awsSession := true }

/-- An environment whose availability check reports every device offline. -/
def c2Env : Env := { testEnv with available := fun _ => false, now := 50 }

/-- The background task for the job of `c2State`. -/
def c2Task : BgTask :=
  { jobId := 0, deviceId := "ionq_forte", name := "Alice", response := "Hello" }

/-- C2, counterexample: availability forced false and no fallback handle
configured, yet the background protocol marks the job `completed` — with the
circuit-hash fallback payload `777` and no error message — instead of marking
it `failed` with `DeviceUnavailable`: the raise inside `_execute_on_device`
is swallowed by its own catch-all handler. -/
theorem C2_background_unavailable_counterexample :
    ((process_quantum_job_for_signature c2State c2Env c2Task).jobStore.jobs.map Job.status
      = ["completed"]) ∧
    ((process_quantum_job_for_signature c2State c2Env c2Task).jobStore.jobs.map
        Job.errorMessage = [none]) ∧
    ((process_quantum_job_for_signature c2State c2Env c2Task).jobStore.jobs.map
        Job.resultData
      = [some (resultDataJson 777 [1/2, 0, 0, 1/2] "IonQ Forte Enterprise" "qpu")]) := by
  decide

/-- The C2 state with the `aws_sv1` fallback handle also configured. -/
def c2StateFb : ServiceState := { c2State with awsDevices := ["ionq_forte", "aws_sv1"] }

/-- An unavailable-device environment whose `aws_sv1` runs answer `42`. -/
def c2EnvFb : Env :=
  { c2Env with runMeasure := fun d _ => if d = "aws_sv1" then Except.ok 42 else Except.ok 5 }

/-- C2, witness: the amended statement at the concrete fallback-configured
service, whose job completes with the value measured on `aws_sv1`. -/
theorem C2_background_unavailable_witness :
    ((getJob (process_quantum_job_for_signature c2StateFb c2EnvFb c2Task).jobStore 0).map
        Job.status = some "completed") ∧
    (∃ ent, (getJob (process_quantum_job_for_signature c2StateFb c2EnvFb c2Task).jobStore
        0).map Job.resultData
      = some (some (resultDataJson 42 ent "IonQ Forte Enterprise" "qpu"))) := by
  have h := C2_background_unavailable c2StateFb c2EnvFb c2Task
    (mkDevice "IonQ Forte Enterprise" "qpu"
      "arn:aws:braket:us-east-1::device/qpu/ionq/Forte-Enterprise-1" "us-east-1" 32 true true)
    c2Job
    (by decide) (by decide) (by decide) (by decide) (by decide) (by decide) (by decide)
    (by decide)
  exact ⟨h.1, h.2.2 42 (by decide) rfl⟩

/-! ## C10 -/

/-- C10, counterexample: with an entanglement vector of length 4 the element
accesses are in bounds, yet the call is not total for every device id: for an
id absent from the registry, `device_info` is the empty dict and the
`device_indicator` lookup raises KeyError, so no record is produced. -/
theorem C10_visuals_counterexample :
    ([(1:ℚ)/2, 0, 0, 1/2].length = 4) ∧
    generate_visual_properties initialService testEnv [] 1 [1/2, 0, 0, 1/2] "bogus_device"
      = none := by
  constructor
  · decide
  · decide

/-- C10, amended: for every device id registered in the registry, evaluation
is total on entanglement vectors of length at least 4 (indices 0 and 3 are in
bounds and a full record is produced), and a vector shorter than 4 makes the
element access fail (no record); for an unregistered id the device-info
lookup itself fails even with a long enough vector. -/
theorem C10_visuals_total_for_known (s : ServiceState) (env : Env)
    (existing : List (ℚ × ℚ)) (dev : String) (qn : ℕ) (ent : List ℚ) (info : DeviceInfo)
    (h : get_device_info s.deviceManager dev = some info) :
    (4 ≤ ent.length → (generate_visual_properties s env existing qn ent dev).isSome = true) ∧
    (ent.length < 4 → generate_visual_properties s env existing qn ent dev = none) := by
  constructor
  · intro hlen
    simp [generate_visual_properties, generate_device_specific_visuals, h,
      List.getElem?_eq_getElem (show (0:ℕ) < ent.length by omega),
      List.getElem?_eq_getElem (show (3:ℕ) < ent.length by omega)]
  · intro hlen
    have h3 : ent[3]? = none := List.getElem?_eq_none (by omega)
    rcases h0 : ent[0]? with _ | e0
    · simp [generate_visual_properties, generate_device_specific_visuals, h0]
    · simp [generate_visual_properties, generate_device_specific_visuals, h0, h3]

/-- C10, witness: the amended statement at the registered device
`quera_aquila`, once with a length-4 vector (total) and once with a length-1
vector (no record). -/
theorem C10_visuals_total_for_known_witness :
    ((generate_visual_properties initialService testEnv [] 1 [1/2, 0, 0, 1/2]
        "quera_aquila").isSome = true) ∧
    (generate_visual_properties initialService testEnv [] 1 [1/2] "quera_aquila" = none) := by
  have h1 := C10_visuals_total_for_known initialService testEnv [] "quera_aquila" 1
    [1/2, 0, 0, 1/2]
    (mkDevice "QuEra Aquila" "qpu" "arn:aws:braket:us-east-1::device/qpu/quera/Aquila"
      "us-east-1" 256 false true) (by decide)
  have h2 := C10_visuals_total_for_known initialService testEnv [] "quera_aquila" 1 [1/2]
    (mkDevice "QuEra Aquila" "qpu" "arn:aws:braket:us-east-1::device/qpu/quera/Aquila"
      "us-east-1" 256 false true) (by decide)
  exact ⟨h1.1 (by decide), h2.2 (by decide)⟩

/-! ## C5 -/

/-- Unfolding equation of the attempt loop at zero fuel. -/
theorem placeAttempts_zero (existing : List (ℚ × ℚ)) (deviceId : String) (b : Band)
    (u : ℕ → ℚ) (attempt k : ℕ) :
    placeAttempts existing deviceId b u 0 attempt k = none := rfl

/-- Unfolding equation of the attempt loop at positive fuel. -/
theorem placeAttempts_succ (existing : List (ℚ × ℚ)) (deviceId : String) (b : Band)
    (u : ℕ → ℚ) (fuel attempt k : ℕ) :
    placeAttempts existing deviceId b u (fuel + 1) attempt k
      = match attemptCandidate deviceId b u attempt k with
        | none => placeAttempts existing deviceId b u fuel (attempt + 1) k
        | some (c, k2) =>
          let px := max 12 (min (88 - effectiveWidthPct b) c.1)
          let py := max 12 (min (88 - effectiveHeightPct b) c.2)
          if existing.any fun e => decide (overlaps b (px, py) e) then
            placeAttempts existing deviceId b u fuel (attempt + 1) k2
          else
            some (px, py) := rfl

/-- A skipped attempt (`continue`) just recurses. -/
theorem placeAttempts_succ_none (existing : List (ℚ × ℚ)) (deviceId : String) (b : Band)
    (u : ℕ → ℚ) (fuel attempt k : ℕ)
    (hc : attemptCandidate deviceId b u attempt k = none) :
    placeAttempts existing deviceId b u (fuel + 1) attempt k
      = placeAttempts existing deviceId b u fuel (attempt + 1) k := by
  rw [placeAttempts_succ, hc]

/-- A proposed candidate is clamped and then collision-checked. -/
theorem placeAttempts_succ_some (existing : List (ℚ × ℚ)) (deviceId : String) (b : Band)
    (u : ℕ → ℚ) (fuel attempt k : ℕ) (cx cy : ℚ) (k2 : ℕ)
    (hc : attemptCandidate deviceId b u attempt k = some ((cx, cy), k2)) :
    placeAttempts existing deviceId b u (fuel + 1) attempt k
      = if existing.any fun e => decide (overlaps b
            (max 12 (min (88 - effectiveWidthPct b) cx),
             max 12 (min (88 - effectiveHeightPct b) cy)) e) then
          placeAttempts existing deviceId b u fuel (attempt + 1) k2
        else
          some (max 12 (min (88 - effectiveWidthPct b) cx),
                max 12 (min (88 - effectiveHeightPct b) cy)) := by
  rw [placeAttempts_succ, hc]

/-- Every density band has a positive effective footprint comfortably inside
the canvas (both effective dimensions are at most 76 percent). -/
theorem band_dims_bounds (n : ℕ) :
    0 < effectiveWidthPct (layoutBand n) ∧ effectiveWidthPct (layoutBand n) ≤ 76 ∧
    0 < effectiveHeightPct (layoutBand n) ∧ effectiveHeightPct (layoutBand n) ≤ 76 := by
  unfold layoutBand
  split_ifs <;> exact ⟨by decide, by decide, by decide, by decide⟩

/-- The clamp used on every returned position lands in the safe band. -/
theorem clamp12_mem (e x : ℚ) (he : 0 < e) :
    12 ≤ max 12 (min (88 - e) x) ∧ max 12 (min (88 - e) x) ≤ 88 :=
  ⟨le_max_left _ _, max_le (by norm_num) (le_trans (min_le_left _ _) (by linarith))⟩

/-- Every position the attempt loop accepts is inside the safe band. -/
theorem placeAttempts_in_band (existing : List (ℚ × ℚ)) (deviceId : String) (b : Band)
    (u : ℕ → ℚ) (hw : 0 < effectiveWidthPct b) (hh : 0 < effectiveHeightPct b) :
    ∀ fuel attempt k p, placeAttempts existing deviceId b u fuel attempt k = some p →
      12 ≤ p.1 ∧ p.1 ≤ 88 ∧ 12 ≤ p.2 ∧ p.2 ≤ 88 := by
  intro fuel
  induction fuel with
  | zero =>
    intro attempt k p hp
    rw [placeAttempts_zero] at hp
    exact absurd hp (by simp)
  | succ fuel ih =>
    intro attempt k p hp
    rcases hc : attemptCandidate deviceId b u attempt k with _ | ⟨⟨cx, cy⟩, k2⟩
    · rw [placeAttempts_succ_none existing deviceId b u fuel attempt k hc] at hp
      exact ih _ _ _ hp
    · rw [placeAttempts_succ_some existing deviceId b u fuel attempt k cx cy k2 hc] at hp
      split at hp
      · exact ih _ _ _ hp
      · obtain rfl := (Option.some.inj hp).symm
        obtain ⟨hx1, hx2⟩ := clamp12_mem (effectiveWidthPct b) cx hw
        obtain ⟨hy1, hy2⟩ := clamp12_mem (effectiveHeightPct b) cy hh
        exact ⟨hx1, hx2, hy1, hy2⟩

/-- Every position the attempt loop accepts passed the collision check: its
effective bounding box overlaps no existing entry's. -/
theorem placeAttempts_no_overlap (existing : List (ℚ × ℚ)) (deviceId : String) (b : Band)
    (u : ℕ → ℚ) :
    ∀ fuel attempt k p, placeAttempts existing deviceId b u fuel attempt k = some p →
      ∀ e ∈ existing, ¬ overlaps b p e := by
  intro fuel
  induction fuel with
  | zero =>
    intro attempt k p hp
    rw [placeAttempts_zero] at hp
    exact absurd hp (by simp)
  | succ fuel ih =>
    intro attempt k p hp
    rcases hc : attemptCandidate deviceId b u attempt k with _ | ⟨⟨cx, cy⟩, k2⟩
    · rw [placeAttempts_succ_none existing deviceId b u fuel attempt k hc] at hp
      exact ih _ _ _ hp
    · rw [placeAttempts_succ_some existing deviceId b u fuel attempt k cx cy k2 hc] at hp
      split at hp
      · exact ih _ _ _ hp
      · next hcol =>
        obtain rfl := (Option.some.inj hp).symm
        intro e he hov
        apply hcol
        simp only [List.any_eq_true]
        exact ⟨e, he, by simpa using hov⟩

/-- Unfolding equation of the placement entry point. -/
theorem generate_collision_free_position_eq (existing : List (ℚ × ℚ)) (deviceId : String)
    (qn : ℕ) (sampler : ℕ → ℕ → ℚ) :
    generate_collision_free_position existing deviceId qn sampler
      = match placeAttempts existing deviceId (layoutBand (existing.length + 1))
            (sampler qn) 150 0 0 with
        | some p => p
        | none =>
          generate_center_spiral_position existing.length
            (effectiveWidthPct (layoutBand (existing.length + 1)))
            (effectiveHeightPct (layoutBand (existing.length + 1))) := rfl

/-- The spiral fallback is clamped into the safe band. -/
theorem spiral_in_band (count : ℕ) (e1 e2 : ℚ) (h1 : 0 < e1) (h2 : 0 < e2) :
    12 ≤ (generate_center_spiral_position count e1 e2).1 ∧
    (generate_center_spiral_position count e1 e2).1 ≤ 88 ∧
    12 ≤ (generate_center_spiral_position count e1 e2).2 ∧
    (generate_center_spiral_position count e1 e2).2 ≤ 88 := by
  unfold generate_center_spiral_position
  obtain ⟨hx1, hx2⟩ := clamp12_mem e1 _ h1
  obtain ⟨hy1, hy2⟩ := clamp12_mem e2 _ h2
  exact ⟨hx1, hx2, hy1, hy2⟩

/-- C5, amended: every position returned by `_generate_collision_free_position`
— including the spiral fallback — has both coordinates in the safe band
`[12, 88]`, and any position accepted by the grid/random candidate loop does
not overlap the effective bounding box of any existing entry; the spiral
fallback, however, performs no collision check, so a fallback position may
overlap (see the counterexample). -/
theorem C5_placement_in_band_and_accepted_disjoint (existing : List (ℚ × ℚ))
    (deviceId : String) (qn : ℕ) (sampler : ℕ → ℕ → ℚ) :
    (12 ≤ (generate_collision_free_position existing deviceId qn sampler).1 ∧
     (generate_collision_free_position existing deviceId qn sampler).1 ≤ 88 ∧
     12 ≤ (generate_collision_free_position existing deviceId qn sampler).2 ∧
     (generate_collision_free_position existing deviceId qn sampler).2 ≤ 88) ∧
    (∀ p, placeAttempts existing deviceId (layoutBand (existing.length + 1)) (sampler qn)
          150 0 0 = some p →
       ∀ e ∈ existing, ¬ overlaps (layoutBand (existing.length + 1)) p e) := by
  obtain ⟨hw, hw2, hh, hh2⟩ := band_dims_bounds (existing.length + 1)
  constructor
  · rw [generate_collision_free_position_eq]
    rcases hres : placeAttempts existing deviceId (layoutBand (existing.length + 1))
        (sampler qn) 150 0 0 with _ | p
    · exact spiral_in_band existing.length _ _ hw hh
    · exact placeAttempts_in_band existing deviceId (layoutBand (existing.length + 1))
        (sampler qn) hw hh 150 0 0 p hres
  · intro p hp
    exact placeAttempts_no_overlap existing deviceId (layoutBand (existing.length + 1))
      (sampler qn) 150 0 0 p hp

set_option maxRecDepth 8000 in
set_option maxHeartbeats 2000000 in
/-- C5, counterexample: two entries placed sequentially by the engine from an
empty canvas (device `local_simulator`, whose clustering region is too small
for the band-1 footprint, so every candidate attempt is skipped and the
spiral fallback fires both times) land at `(58, 50)` and at a second position
whose effective bounding box overlaps the first — the spiral fallback places
without any collision check. -/
theorem C5_spiral_overlap_counterexample :
    generate_collision_free_position [] "local_simulator" 7 halfStream = (58, 50) ∧
    overlaps (layoutBand 2)
      (generate_collision_free_position [(58, 50)] "local_simulator" 8 halfStream)
      (58, 50) := by
  constructor
  · decide
  · decide

set_option maxRecDepth 8000 in
set_option maxHeartbeats 2000000 in
/-- C5, witness: the amended statement at a concrete input whose candidate
loop accepts a position (grid attempt 55): the accepted position is in the
safe band and clear of the existing entry. -/
theorem C5_placement_witness :
    (12 ≤ (generate_collision_free_position [(20, 20)] "bogus" 0 topStream).1 ∧
     (generate_collision_free_position [(20, 20)] "bogus" 0 topStream).1 ≤ 88 ∧
     12 ≤ (generate_collision_free_position [(20, 20)] "bogus" 0 topStream).2 ∧
     (generate_collision_free_position [(20, 20)] "bogus" 0 topStream).2 ≤ 88) ∧
    ¬ overlaps (layoutBand 2) ((367 : ℚ)/7, (305 : ℚ)/7) (20, 20) := by
  have h := C5_placement_in_band_and_accepted_disjoint [(20, 20)] "bogus" 0 topStream
  exact ⟨h.1, h.2 ((367 : ℚ)/7, (305 : ℚ)/7) (by decide) (20, 20) (by decide)⟩
